import Mathlib

/-!
Verification of the sliding-window average-calculator microservice
(`main.py`).  The Python module keeps one bounded window of integers per
number category, merges freshly fetched numbers into it, and serves the
previous window, the new window, the newly added numbers and the average
of the new window.  Machine integers of the source are modelled as `Int`
(Python integers are unbounded) and the floating-point average as `Rat`
(the exact value of `sum(numbers) / len(numbers)`).
-/

/-- `MAX_WINDOW_SIZE = 10` from the source. -/
def MAX_WINDOW_SIZE : Nat := 10

/-- The `NumberType` enum: the four recognised categories. -/
inductive NumberType where
  | prime
  | fibonacci
  | even
  | random
deriving DecidableEq

/-- The process-wide `number_windows` dictionary: one list of integers per
category.  Modelled as a structure with one field per enum member, which
mirrors the dictionary literal with exactly the four fixed keys. -/
structure Windows where
  prime : List Int
  fibonacci : List Int
  even : List Int
  random : List Int
deriving DecidableEq

/-- Dictionary lookup `number_windows[type_key]`. -/
def Windows.get (w : Windows) : NumberType → List Int
  | NumberType.prime => w.prime
  | NumberType.fibonacci => w.fibonacci
  | NumberType.even => w.even
  | NumberType.random => w.random

/-- Dictionary store `number_windows[type_key] = value`. -/
def Windows.set (w : Windows) (c : NumberType) (l : List Int) : Windows :=
  match c with
  | NumberType.prime => { w with prime := l }
  | NumberType.fibonacci => { w with fibonacci := l }
  | NumberType.even => { w with even := l }
  | NumberType.random => { w with random := l }

/-- The initial `number_windows` value: every category starts empty. -/
def number_windows : Windows := ⟨[], [], [], []⟩

/-- A store whose prime window is full (`[1..10]`): the starting state of
the spec's Scenario B. -/
def scenarioB : Windows := ⟨[1, 2, 3, 4, 5, 6, 7, 8, 9, 10], [], [], []⟩

/-- The `NumberResponse` pydantic model (the response body). -/
structure NumberResponse where
  windowPrevState : List Int
  windowCurrState : List Int
  numbers : List Int
  avg : Rat

/-- `update_window(type_key, new_vals)` from the source, with the mutation
of the global dictionary made explicit: takes the store, returns the new
store together with the returned triple `(previous, current, new_additions)`.

Python body:
```
current = number_windows[type_key].copy()
previous = current.copy()
new_additions = []
for num in new_vals:
    if num not in current:
        new_additions.append(num)
current.extend(new_additions)
if len(current) > MAX_WINDOW_SIZE:
    current = current[-MAX_WINDOW_SIZE:]
number_windows[type_key] = current
return previous, current, new_additions
```
Note the loop tests membership against `current`, which is not modified
inside the loop, so `new_additions` is exactly the filter of `new_vals` by
non-membership in the starting window. -/
def update_window (s : Windows) (type_key : NumberType) (new_vals : List Int) :
    Windows × (List Int × List Int × List Int) :=
  let current := s.get type_key
  let previous := current
  let new_additions := new_vals.filter (fun num => decide (num ∉ current))
  let current2 := current ++ new_additions
  let current3 :=
    if MAX_WINDOW_SIZE < current2.length then
      current2.drop (current2.length - MAX_WINDOW_SIZE)
    else
      current2
  (s.set type_key current3, (previous, current3, new_additions))

/-- `calc_avg(numbers)` from the source: `0.0` on the empty list, otherwise
`sum(numbers) / len(numbers)` (exact value, as a rational). -/
def calc_avg (numbers : List Int) : Rat :=
  if numbers = [] then 0 else (numbers.sum : Rat) / (numbers.length : Rat)

/-- Outcome of `await get_numbers_from_api(numberid)` as observed by the
handler: a list (possibly empty), `None` (the function's uniform failure
value), or a raised exception escaping the call. -/
inductive FetchResult where
  | ok (nums : List Int)
  | failed
  | raised

/-- The body of the `try:` block of the `get_numbers` endpoint handler:
either produces the store and response, or propagates the exception.
Mirrors lines 152–178 of the source. -/
def get_numbers_try (s : Windows) (numberid : NumberType) (fetch : FetchResult) :
    Except Unit (Windows × NumberResponse) :=
  match fetch with
  | FetchResult.raised => Except.error ()
  | FetchResult.failed =>
      let window := s.get numberid
      Except.ok (s, ⟨window, window, [], calc_avg window⟩)
  | FetchResult.ok new_numbers =>
      if new_numbers.length = 0 then
        let window := s.get numberid
        Except.ok (s, ⟨window, window, [], calc_avg window⟩)
      else
        match update_window s numberid new_numbers with
        | (s2, (prev, curr, added)) =>
            Except.ok (s2, ⟨prev, curr, added, calc_avg curr⟩)

/-- The `get_numbers` endpoint handler with its `except Exception` clause:
any exception from the body is converted to the fallback response built
from the unchanged current window (lines 179–187 of the source). -/
def get_numbers (s : Windows) (numberid : NumberType) (fetch : FetchResult) :
    Windows × NumberResponse :=
  match get_numbers_try s numberid fetch with
  | Except.ok r => r
  | Except.error _ =>
      let window := s.get numberid
      (s, ⟨window, window, [], calc_avg window⟩)

/-! ### Component lemmas for `update_window` -/

/-- The `added` component is the filter of the candidates by
non-membership in the starting window. -/
theorem update_window_added (s : Windows) (c : NumberType) (vals : List Int) :
    (update_window s c vals).2.2.2 =
      vals.filter (fun num => decide (num ∉ s.get c)) := rfl

/-- The `previous` component is the starting window. -/
theorem update_window_prev (s : Windows) (c : NumberType) (vals : List Int) :
    (update_window s c vals).2.1 = s.get c := rfl

/-- The `current` component is the (possibly truncated) concatenation of
the starting window and the `added` component. -/
theorem update_window_curr (s : Windows) (c : NumberType) (vals : List Int) :
    (update_window s c vals).2.2.1 =
      (if MAX_WINDOW_SIZE < (s.get c ++ (update_window s c vals).2.2.2).length then
        (s.get c ++ (update_window s c vals).2.2.2).drop
          ((s.get c ++ (update_window s c vals).2.2.2).length - MAX_WINDOW_SIZE)
      else
        s.get c ++ (update_window s c vals).2.2.2) := rfl

/-- The new store holds the `current` component at the updated key. -/
theorem update_window_state (s : Windows) (c : NumberType) (vals : List Int) :
    (update_window s c vals).1 = s.set c (update_window s c vals).2.2.1 := rfl

/-- Reading the key just written returns the written value. -/
theorem Windows.get_set_same (s : Windows) (c : NumberType) (l : List Int) :
    (s.set c l).get c = l := by
  cases c <;> rfl

/-- Reading any other key is unaffected by a write. -/
theorem Windows.get_set_other (s : Windows) (c c' : NumberType) (l : List Int)
    (h : c' ≠ c) : (s.set c l).get c' = s.get c' := by
  cases c <;> cases c' <;> first | rfl | exact absurd rfl h

/-- Writing back the value already stored at a key is the identity. -/
theorem Windows.set_get_self (s : Windows) (c : NumberType) :
    s.set c (s.get c) = s := by
  cases c <;> rfl

/-! ### Claim theorems -/

/-- C1 (amended): if the starting window has no duplicates and no value
absent from the window occurs twice in the candidate list (equivalently,
the filtered candidates are pairwise distinct), the current window after
`update_window` has no duplicates.  (As originally stated the claim is
false: dedup is only against the pre-existing window, so a new value
occurring twice among the candidates is appended twice — see the
counterexample.) -/
theorem C1_update_nodup (s : Windows) (c : NumberType) (vals : List Int)
    (h1 : (s.get c).Nodup)
    (h2 : (vals.filter (fun num => decide (num ∉ s.get c))).Nodup) :
    ((update_window s c vals).2.2.1).Nodup := by
  have happ : (s.get c ++ (update_window s c vals).2.2.2).Nodup := by
    rw [update_window_added]
    refine List.Nodup.append h1 h2 ?_
    intro x hx hxf
    have hp := List.of_mem_filter hxf
    simp only [decide_eq_true_eq] at hp
    exact hp hx
  rw [update_window_curr]
  split
  · exact List.Nodup.sublist (List.drop_sublist _ _) happ
  · exact happ

/-- C1: counterexample to the claim as stated — starting from the empty
(duplicate-free) window, candidates `[3, 3]` produce the current window
`[3, 3]`, which has a duplicate: the value occurring twice in the
candidate list is appended twice, not at most once. -/
theorem C1_counterexample :
    (number_windows.get NumberType.prime).Nodup ∧
    ¬ ((update_window number_windows NumberType.prime [3, 3]).2.2.1).Nodup := by
  decide

/-- C1: witness instantiating `C1_update_nodup` at a concrete input. -/
theorem C1_update_nodup_witness :
    ((update_window number_windows NumberType.prime [2, 3, 5]).2.2.1).Nodup :=
  C1_update_nodup number_windows NumberType.prime [2, 3, 5] (by decide) (by decide)

/-- C2 (amended): `added` is exactly the filter of the candidates by
non-membership in the previous window; hence it is a sublist of the
candidates (subset, in encounter order) and disjoint from the previous
window.  (The no-internal-duplicates part of the original claim is false —
see the counterexample — because a new value repeated in the candidate
list is recorded at each occurrence.) -/
theorem C2_added_filter (s : Windows) (c : NumberType) (vals : List Int) :
    (update_window s c vals).2.2.2 =
      vals.filter (fun num => decide (num ∉ s.get c)) ∧
    List.Sublist (update_window s c vals).2.2.2 vals ∧
    List.Disjoint (update_window s c vals).2.2.2 (s.get c) := by
  refine ⟨rfl, ?_, ?_⟩
  · rw [update_window_added]
    exact List.filter_sublist _
  · rw [update_window_added]
    intro x hx hxc
    have hp := List.of_mem_filter hx
    simp only [decide_eq_true_eq] at hp
    exact hp hxc

/-- C2: counterexample to the claim as stated — with an empty previous
window, candidates `[3, 3]` give `added = [3, 3]`, which has an internal
duplicate. -/
theorem C2_counterexample :
    (update_window number_windows NumberType.fibonacci [3, 3]).2.2.2 = [3, 3] ∧
    ¬ ((update_window number_windows NumberType.fibonacci [3, 3]).2.2.2).Nodup := by
  decide

/-- C3: for a starting window of length at most 10, the current window
returned by `update_window` has length at most 10, and it is also the
window stored for the category. -/
theorem C3_capacity_bound (s : Windows) (c : NumberType) (vals : List Int)
    (h : (s.get c).length ≤ 10) :
    ((update_window s c vals).2.2.1).length ≤ 10 ∧
    (update_window s c vals).1.get c = (update_window s c vals).2.2.1 := by
  constructor
  · rw [update_window_curr]
    split
    · rename_i hlt
      rw [List.length_drop]
      simp only [MAX_WINDOW_SIZE] at hlt ⊢
      omega
    · rename_i hle
      simp only [MAX_WINDOW_SIZE] at hle
      omega
  · rw [update_window_state, Windows.get_set_same]

/-- C3: witness instantiating `C3_capacity_bound` at a concrete input. -/
theorem C3_capacity_bound_witness :
    ((update_window number_windows NumberType.prime [1, 2, 3]).2.2.1).length ≤ 10 ∧
    (update_window number_windows NumberType.prime [1, 2, 3]).1.get NumberType.prime =
      (update_window number_windows NumberType.prime [1, 2, 3]).2.2.1 :=
  C3_capacity_bound number_windows NumberType.prime [1, 2, 3] (by decide)

/-- C4: when appending the new values pushes the working copy past
capacity 10, the current window is the working copy truncated from the
front to its last 10 elements. -/
theorem C4_truncation (s : Windows) (c : NumberType) (vals : List Int)
    (h : 10 < (s.get c ++ (update_window s c vals).2.2.2).length) :
    (update_window s c vals).2.2.1 =
      (s.get c ++ (update_window s c vals).2.2.2).drop
        ((s.get c ++ (update_window s c vals).2.2.2).length - 10) := by
  rw [update_window_curr]
  simp only [MAX_WINDOW_SIZE]
  rw [if_pos h]

/-- C4: witness — Scenario B: window `[1..10]`, candidates `[11, 12]`
yield previous `[1..10]`, current `[3..12]`, added `[11, 12]`, and the
current window equals the truncation given by `C4_truncation`. -/
theorem C4_truncation_witness :
    (update_window scenarioB NumberType.prime [11, 12]).2 =
      ([1, 2, 3, 4, 5, 6, 7, 8, 9, 10], ([3, 4, 5, 6, 7, 8, 9, 10, 11, 12], [11, 12])) ∧
    (update_window scenarioB NumberType.prime [11, 12]).2.2.1 =
      (scenarioB.get NumberType.prime ++
          (update_window scenarioB NumberType.prime [11, 12]).2.2.2).drop
        ((scenarioB.get NumberType.prime ++
            (update_window scenarioB NumberType.prime [11, 12]).2.2.2).length - 10) :=
  ⟨by decide, C4_truncation scenarioB NumberType.prime [11, 12] (by decide)⟩

/-- C5: when the fetch fails (`None`) or returns the empty list, the
handler leaves the store unchanged and returns the current window as both
previous and current state, an empty added list, and the window's
average, as a success. -/
theorem C5_empty_fetch (s : Windows) (c : NumberType) :
    get_numbers s c FetchResult.failed =
      (s, ⟨s.get c, s.get c, [], calc_avg (s.get c)⟩) ∧
    get_numbers s c (FetchResult.ok []) =
      (s, ⟨s.get c, s.get c, [], calc_avg (s.get c)⟩) :=
  ⟨rfl, rfl⟩

/-- C6: `calc_avg` returns `0` on the empty list and the exact quotient
`sum / length` on a non-empty list; as a Lean function it is pure. -/
theorem C6_calc_avg (l : List Int) :
    (l = [] → calc_avg l = 0) ∧
    (l ≠ [] → calc_avg l = (l.sum : Rat) / (l.length : Rat)) := by
  constructor
  · intro h
    simp only [calc_avg, if_pos h]
  · intro h
    simp only [calc_avg, if_neg h]

/-- C6: witness instantiating `C6_calc_avg` at `[4, 6, 8]`. -/
theorem C6_calc_avg_witness :
    ([4, 6, 8] : List Int) ≠ [] ∧
    calc_avg [4, 6, 8] =
      ((([4, 6, 8] : List Int).sum : Rat) / ((([4, 6, 8] : List Int).length : Nat) : Rat)) :=
  ⟨by decide, (C6_calc_avg [4, 6, 8]).2 (by decide)⟩

/-- C7: an exception escaping the `try:` body is caught by the handler
and converted into the degraded-success response built from the unchanged
current window, so the handler always returns a well-formed response and
never propagates the error. -/
theorem C7_handler_catches (s : Windows) (c : NumberType) :
    get_numbers_try s c FetchResult.raised = Except.error () ∧
    get_numbers s c FetchResult.raised =
      (s, ⟨s.get c, s.get c, [], calc_avg (s.get c)⟩) :=
  ⟨rfl, rfl⟩

/-- C8: `update_window` on category `c` leaves the stored window of every
other category unchanged. -/
theorem C8_frame (s : Windows) (c : NumberType) (vals : List Int) (c' : NumberType)
    (h : c' ≠ c) :
    (update_window s c vals).1.get c' = s.get c' := by
  rw [update_window_state, Windows.get_set_other _ _ _ _ h]

/-- C8: witness instantiating `C8_frame` at a concrete input. -/
theorem C8_frame_witness :
    (update_window number_windows NumberType.prime [1, 2]).1.get NumberType.even =
      number_windows.get NumberType.even :=
  C8_frame number_windows NumberType.prime [1, 2] NumberType.even (by decide)

/-- C9: updating with an empty candidate list is the identity: the store
is unchanged and the returned triple is (window, window, []). -/
theorem C9_empty_update (s : Windows) (c : NumberType)
    (h : (s.get c).length ≤ 10) :
    update_window s c [] = (s, (s.get c, s.get c, [])) := by
  have hcur : (update_window s c []).2.2.1 = s.get c := by
    rw [update_window_curr, update_window_added]
    simp only [List.filter_nil, List.append_nil, MAX_WINDOW_SIZE]
    rw [if_neg (by omega)]
  have hstate : (update_window s c []).1 = s := by
    rw [update_window_state, hcur, Windows.set_get_self]
  have hadd : (update_window s c []).2.2.2 = [] := by
    rw [update_window_added]
    rfl
  have hprev : (update_window s c []).2.1 = s.get c := update_window_prev s c []
  calc update_window s c []
      = ((update_window s c []).1,
          ((update_window s c []).2.1,
            ((update_window s c []).2.2.1, (update_window s c []).2.2.2))) := rfl
    _ = (s, (s.get c, s.get c, [])) := by rw [hstate, hprev, hcur, hadd]

/-- C9: witness instantiating `C9_empty_update` at a concrete input. -/
theorem C9_empty_update_witness :
    update_window number_windows NumberType.even [] =
      (number_windows,
        (number_windows.get NumberType.even, number_windows.get NumberType.even, [])) :=
  C9_empty_update number_windows NumberType.even (by decide)

/-- C10: the current window is the suffix of `previous ++ added`
consisting of its last `min 10 (previous ++ added).length` elements; in
particular it is a contiguous suffix of `previous ++ added`. -/
theorem C10_suffix (s : Windows) (c : NumberType) (vals : List Int)
    (h : (s.get c).length ≤ 10) :
    (update_window s c vals).2.2.1 =
      (s.get c ++ (update_window s c vals).2.2.2).drop
        ((s.get c ++ (update_window s c vals).2.2.2).length -
          min 10 (s.get c ++ (update_window s c vals).2.2.2).length) ∧
    List.IsSuffix (update_window s c vals).2.2.1
      (s.get c ++ (update_window s c vals).2.2.2) := by
  have heq : (update_window s c vals).2.2.1 =
      (s.get c ++ (update_window s c vals).2.2.2).drop
        ((s.get c ++ (update_window s c vals).2.2.2).length -
          min 10 (s.get c ++ (update_window s c vals).2.2.2).length) := by
    rw [update_window_curr]
    simp only [MAX_WINDOW_SIZE]
    split
    · rename_i hlt
      congr 1
      omega
    · rename_i hle
      have h0 : (s.get c ++ (update_window s c vals).2.2.2).length -
          min 10 (s.get c ++ (update_window s c vals).2.2.2).length = 0 := by omega
      rw [h0, List.drop_zero]
  refine ⟨heq, ?_⟩
  rw [heq]
  exact List.drop_suffix _ _

/-- C10: witness instantiating `C10_suffix` at a concrete input. -/
theorem C10_suffix_witness :
    (update_window number_windows NumberType.prime [5, 6]).2.2.1 =
      (number_windows.get NumberType.prime ++
          (update_window number_windows NumberType.prime [5, 6]).2.2.2).drop
        ((number_windows.get NumberType.prime ++
            (update_window number_windows NumberType.prime [5, 6]).2.2.2).length -
          min 10 (number_windows.get NumberType.prime ++
            (update_window number_windows NumberType.prime [5, 6]).2.2.2).length) ∧
    List.IsSuffix (update_window number_windows NumberType.prime [5, 6]).2.2.1
      (number_windows.get NumberType.prime ++
        (update_window number_windows NumberType.prime [5, 6]).2.2.2) :=
  C10_suffix number_windows NumberType.prime [5, 6] (by decide)
